import Mathlib

/-!
Verification model of the `kstd-types` ownership primitives.

This file gives a shallow embedding of the three core components of the
repository and proves properties about them:

* `BasicRc` — the reference-counted handle of `src/include/kstd/rc.hpp`.
  Its control blocks (`RcInner`) live in an explicit heap (`RcState`);
  every handle operation is a state transformer.  Dereferencing a null or
  dangling control-block pointer (undefined behaviour in the C++ source)
  is modelled by returning `none`.
* `BoxV` — the owned-value specialization `Box<T, def_if_val<T>>` of
  `src/include/kstd/box.hpp`, with destructor invocations made observable
  through an explicit log of destroyed values.
* `OptionV` — `Option<T>` of `src/include/kstd/option.hpp` over a
  value-category `T`, composed from `BoxV` exactly as the source composes
  `Option` from `Box`.

The element type `T` is instantiated with `Nat` (the scenarios of the spec
use `i32`); pointers are modelled as natural-number addresses, with `none`
for `nullptr`.  The `usize` reference counter is modelled by `Nat`:
a live handle occupies at least one byte of address space, so a real
execution can never hold 2^64 simultaneous references and counter overflow
is unreachable in any state the claims quantify over.
-/

/-- The control block of `rc.hpp`: `struct RcInner { T* value; COUNTER_TYPE count; }`.
`value` is the owned pointer (`none` = `nullptr`), `count` the reference count.
The default constructor value-initializes both fields: `value()` (null) and
`count()` (zero). -/
structure RcInner where
  value : Option Nat
  count : Nat
deriving DecidableEq

/-- The default-constructed control block, `RcInner() : value(), count()`. -/
def RcInner.default : RcInner := ⟨none, 0⟩

/-- The world the reference-counted handles act on: the heap of live control
blocks (address → block, `none` = not allocated / already freed), a fresh
address supply, and two event counters observing the allocator capability:
how many times `Allocator<T>::destroy` ran on the pointee and how many times
`Allocator<RcInner>::destroy` released a control block. -/
structure RcState where
  blocks : Nat → Option RcInner
  nextAddr : Nat
  valueDestroyCount : Nat
  blockDestroyCount : Nat

/-- The initial world: no control blocks, no destroy events. -/
def emptyRcState : RcState :=
  { blocks := fun _ => none
    nextAddr := 0
    valueDestroyCount := 0
    blockDestroyCount := 0 }

/-- Overwrite the control block stored at address `a`. -/
def RcState.setBlock (s : RcState) (a : Nat) (i : RcInner) : RcState :=
  { s with blocks := fun x => if x = a then some i else s.blocks x }

/-- Modelled from the spec: the allocator capability (`allocator.hpp` is not
under `src/`) exposes `construct(args...) -> T*`; `ALLOCATOR<InnerType>().construct()`
returns a fresh address holding a default-constructed `RcInner`. -/
def RcState.allocInner (s : RcState) : Nat × RcState :=
  (s.nextAddr,
   { s with
      blocks := fun x => if x = s.nextAddr then some RcInner.default else s.blocks x
      nextAddr := s.nextAddr + 1 })

/-- Modelled from the spec: `ALLOCATOR<T>().construct(args...)` of `make_rc`
yields a fresh address for the newly allocated pointee. -/
def RcState.allocValue (s : RcState) : Nat × RcState :=
  (s.nextAddr, { s with nextAddr := s.nextAddr + 1 })

/-- A reference-counted handle: `BasicRc` holds the single field
`InnerType* _inner` — the address of its control block, `none` = `nullptr`. -/
structure BasicRc where
  inner : Option Nat
deriving DecidableEq

namespace BasicRc

/-- `BasicRc() : _inner()` — the default-constructed (null) handle. -/
def mkDefault : BasicRc := ⟨none⟩

/-- `BasicRc(T* value)`: allocates a control block through
`ALLOCATOR<InnerType>().construct()`, then sets `_inner->value = value` and
`_inner->count = 1`. -/
def mkFromPtr (p : Nat) (s : RcState) : BasicRc × RcState :=
  let (a, s1) := s.allocInner
  (⟨some a⟩, s1.setBlock a ⟨some p, 1⟩)

/-- `BasicRc(const Self& other) : _inner(other._inner) { ++_inner->count; }`.
The increment dereferences `_inner` unconditionally, so a null or dangling
source is undefined behaviour (`none`). -/
def copyCtor (other : BasicRc) (s : RcState) : Option (BasicRc × RcState) :=
  match other.inner with
  | none => none
  | some a =>
    match s.blocks a with
    | none => none
    | some i => some (⟨some a⟩, s.setBlock a ⟨i.value, i.count + 1⟩)

/-- `BasicRc(Self&& other) : _inner(other._inner) { /- Count stays the same -/ }`.
Returns the new handle and the source as the move leaves it: the source's
`_inner` is not nulled and the count is untouched. -/
def moveCtor (other : BasicRc) : BasicRc × BasicRc :=
  (⟨other.inner⟩, other)

/-- `drop()`: if `_inner` is non-null, decrement the count when it is still
positive, otherwise (count already zero) destroy the pointee through
`Allocator().destroy(_inner->value)` and release the control block through
`ALLOCATOR<InnerType>().destroy(_inner)`; in both cases null out `_inner`.
A dangling `_inner` (block already freed) is undefined behaviour (`none`). -/
def drop (h : BasicRc) (s : RcState) : Option (BasicRc × RcState) :=
  match h.inner with
  | none => some (h, s)
  | some a =>
    match s.blocks a with
    | none => none
    | some i =>
      if 0 < i.count then
        some (⟨none⟩, s.setBlock a ⟨i.value, i.count - 1⟩)
      else
        some (⟨none⟩,
          { blocks := fun x => if x = a then none else s.blocks x
            nextAddr := s.nextAddr
            valueDestroyCount := s.valueDestroyCount + 1
            blockDestroyCount := s.blockDestroyCount + 1 })

/-- `operator=(const Self& other)`: overwrites `_inner` with the source's
pointer — the previous attachment is not released — then increments the new
count behind a null guard (`if (_inner) ++_inner->count`).  The
self-assignment identity check (`this == &other`) guards object identity,
which has no counterpart in this value model; the modelled call has distinct
operands, as in every scenario of the claims. -/
def copyAssign (_this other : BasicRc) (s : RcState) : Option (BasicRc × RcState) :=
  match other.inner with
  | none => some (⟨none⟩, s)
  | some a =>
    match s.blocks a with
    | none => none
    | some i => some (⟨some a⟩, s.setBlock a ⟨i.value, i.count + 1⟩)

/-- `operator=(Self&& other)`: `_inner = other._inner; return *this;` — the
source's pointer is not nulled and no count changes.  Returns the target and
the source as the move leaves them. -/
def moveAssign (_this other : BasicRc) : BasicRc × BasicRc :=
  (⟨other.inner⟩, other)

/-- `has_value()`: `_inner != nullptr && _inner->value != nullptr`.
Reading through a dangling `_inner` is undefined behaviour (`none`). -/
def has_value (h : BasicRc) (s : RcState) : Option Bool :=
  match h.inner with
  | none => some false
  | some a => (s.blocks a).map (fun i => i.value.isSome)

/-- `get_count()`: `0` for a null handle, otherwise `_inner->count`. -/
def get_count (h : BasicRc) (s : RcState) : Option Nat :=
  match h.inner with
  | none => some 0
  | some a => (s.blocks a).map (·.count)

end BasicRc

/-- `n` successive copy-constructions from the same original handle,
in the world `s`; yields the copies and the final world. -/
def copyN (orig : BasicRc) : Nat → RcState → Option (List BasicRc × RcState)
  | 0, s => some ([], s)
  | n + 1, s =>
    match BasicRc.copyCtor orig s with
    | none => none
    | some (h, s1) =>
      match copyN orig n s1 with
      | none => none
      | some (hs, s2) => some (h :: hs, s2)

/-- Drop every handle of the list in order, threading the world. -/
def dropN : List BasicRc → RcState → Option RcState
  | [], s => some s
  | h :: hs, s =>
    match BasicRc.drop h s with
    | none => none
    | some (_, s1) => dropN hs s1

/-!
The owned-value `Box` specialization (`Box<T, def_if_val<T>>` of `box.hpp`)
with `T := Nat`.  Destructor invocations on the held content are the
observable effect the claims talk about, so every operation that runs
`_value.~ValueType()` threads a log (`List Nat`) and appends the value it
destroys.  `Nat` stands for `i32`: it is destructible (so `drop` runs the
pseudo-destructor), and moving it is copying it, matching `move(_value)`
on a scalar.
-/

/-- The owned-value Box specialization: the one field `ValueType _value`. -/
structure BoxV where
  _value : Nat
deriving DecidableEq

namespace BoxV

/-- `Box() : _value(ValueType())` — default-constructs the held `T` (zero). -/
def mkDefault : BoxV := ⟨0⟩

/-- `Box(ValueType&& value) : _value(move(value))`. -/
def mkVal (v : Nat) : BoxV := ⟨v⟩

/-- `drop()`: `T` is destructible, so `_value.~ValueType()` runs — the log
records the destroyed content.  The object's storage (and thus the field in
this model) is unchanged. -/
def drop (b : BoxV) (l : List Nat) : List Nat := l ++ [b._value]

/-- `borrow()`: a reference to the held content. -/
def borrow (b : BoxV) : Nat := b._value

/-- `get()`: `move(_value)` — for the scalar model, the value itself. -/
def get (b : BoxV) : Nat := b._value

/-- `operator=(ValueType value)`: `drop(); _value = move(value);` — the
previous content is destroyed first, then the new one installed. -/
def assignValue (b : BoxV) (v : Nat) (l : List Nat) : BoxV × List Nat :=
  (⟨v⟩, drop b l)

/-- `operator*()`: `borrow()`. -/
def star (b : BoxV) : Nat := borrow b

/-- `~Box() { drop(); }` — the destructor at the end of the slot's lifetime. -/
def dtor (b : BoxV) (l : List Nat) : List Nat := drop b l

end BoxV

/-- `Option<T>` over a value-category `T` (`option.hpp`): the inner
`Box<ValueType> _inner` plus the presence flag `bool _is_present`. -/
structure OptionV where
  _inner : BoxV
  _is_present : Bool
deriving DecidableEq

namespace OptionV

/-- `Option() : _inner(), _is_present(false)` — `make_empty`. -/
def mkEmpty : OptionV := ⟨BoxV.mkDefault, false⟩

/-- `Option(ValueType value) : _inner(move(value)), _is_present(true)` —
`make_value`. -/
def mkValue (v : Nat) : OptionV := ⟨BoxV.mkVal v, true⟩

/-- `is_empty()`: `!_is_present`. -/
def is_empty (o : OptionV) : Bool := !o._is_present

/-- `has_value()`: `_is_present` (also `operator bool()`). -/
def has_value (o : OptionV) : Bool := o._is_present

/-- `drop()`: `_inner.~InnerType(); _is_present = false;` — destroys the
inner Box (whose destructor destroys the held content) and clears the flag. -/
def drop (o : OptionV) (l : List Nat) : OptionV × List Nat :=
  (⟨o._inner, false⟩, BoxV.dtor o._inner l)

/-- `reset()`: `_is_present = false;` — only the flag is touched. -/
def reset (o : OptionV) (l : List Nat) : OptionV × List Nat :=
  (⟨o._inner, false⟩, l)

/-- `Option(const Self& other) : _inner(), _is_present(other._is_present)`
then `if (other) { drop(); _inner = other._inner.borrow(); }`.
`drop()` clears `_is_present` and it is never set back; the Box assignment
`_inner = other._inner.borrow()` itself drops the (default-constructed)
inner content again before installing the copy. -/
def copyCtor (other : OptionV) (l : List Nat) : OptionV × List Nat :=
  let self0 : OptionV := ⟨BoxV.mkDefault, other._is_present⟩
  if other.has_value then
    let (self1, l1) := drop self0 l
    let (inner2, l2) := BoxV.assignValue self1._inner (BoxV.borrow other._inner) l1
    (⟨inner2, self1._is_present⟩, l2)
  else (self0, l)

/-- `Option(Self&& other) : _inner(), _is_present(other._is_present)` then
`if (other) { drop(); _inner = other._inner.get(); }`.  Yields the new
container, the source as the move leaves it (its flag untouched), and the
log.  As in the copy constructor, `drop()` clears the flag for good. -/
def moveCtor (other : OptionV) (l : List Nat) : OptionV × OptionV × List Nat :=
  let self0 : OptionV := ⟨BoxV.mkDefault, other._is_present⟩
  if other.has_value then
    let (self1, l1) := drop self0 l
    let (inner2, l2) := BoxV.assignValue self1._inner (BoxV.get other._inner) l1
    (⟨inner2, self1._is_present⟩, other, l2)
  else (self0, other, l)

/-- `operator=(const Self& other)`: when the source is present,
`drop(); _inner = other._inner.borrow(); _is_present = true;`; when the
source is empty, nothing happens at all.  The self-assignment identity
check (`this == &other`) has no counterpart in this value model; the
modelled call has distinct operands, as in every scenario of the claims. -/
def copyAssign (self other : OptionV) (l : List Nat) : OptionV × List Nat :=
  if other.has_value then
    let (self1, l1) := drop self l
    let (inner2, l2) := BoxV.assignValue self1._inner (BoxV.borrow other._inner) l1
    (⟨inner2, true⟩, l2)
  else (self, l)

/-- `operator=(Self&& other)`: when the source is present,
`drop(); _inner = other._inner.get(); _is_present = true;`; the source's
flag is never cleared.  Yields target, source after the move, and the log. -/
def moveAssign (self other : OptionV) (l : List Nat) : OptionV × OptionV × List Nat :=
  if other.has_value then
    let (self1, l1) := drop self l
    let (inner2, l2) := BoxV.assignValue self1._inner (BoxV.get other._inner) l1
    (⟨inner2, true⟩, other, l2)
  else (self, other, l)

/-- `borrow_value()` in the `BUILD_DEBUG` configuration: the `#ifdef
BUILD_DEBUG` guard checks `is_empty()` and raises
`std::runtime_error("Result has no value")` instead of returning;
otherwise it returns `_inner.borrow()`. -/
def borrow_value_dbg (o : OptionV) : Except String Nat :=
  if o.is_empty then Except.error "Result has no value"
  else Except.ok (BoxV.borrow o._inner)

/-- `get_value()` in the `BUILD_DEBUG` configuration: same guard, then
`return _inner.get();`. -/
def get_value_dbg (o : OptionV) : Except String Nat :=
  if o.is_empty then Except.error "Result has no value"
  else Except.ok (BoxV.get o._inner)

/-- `operator*()`: `return borrow_value();` (debug configuration). -/
def star_dbg (o : OptionV) : Except String Nat := borrow_value_dbg o

end OptionV

/-!
Concrete scenarios from the spec's §8, evaluated on the embedded code.
-/

/-- Scenario C of the spec on the embedded code: `a = make_rc<Widget>(...)`
(the allocator constructs the pointee, then `BasicRc(T*)`), `b = a` (copy),
read both counts, drop `b`, read `a`'s count, drop `a`.  Yields
`(count(a) after copy, count(b) after copy, count(a) after dropping b,
pointee destroys, control-block destroys)`. -/
def rcScenarioC : Option (Nat × Nat × Nat × Nat × Nat) :=
  let (p, s0) := emptyRcState.allocValue
  let (a, s1) := BasicRc.mkFromPtr p s0
  match BasicRc.copyCtor a s1 with
  | none => none
  | some (b, s2) =>
    match BasicRc.get_count a s2, BasicRc.get_count b s2 with
    | some ca, some cb =>
      match BasicRc.drop b s2 with
      | none => none
      | some (_, s3) =>
        match BasicRc.get_count a s3 with
        | none => none
        | some ca2 =>
          match BasicRc.drop a s3 with
          | none => none
          | some (_, s4) =>
            some (ca, cb, ca2, s4.valueDestroyCount, s4.blockDestroyCount)
    | _, _ => none

/-- Copy-assignment over an existing attachment: `a` owns control block 0
(`{value 100, count 1}`), `b` owns control block 1 (`{value 200, count 1}`),
then `a = b`.  Yields `(block 0 afterwards, block 1 afterwards,
pointee destroys, control-block destroys)`. -/
def rcAssignScenario : Option (Option RcInner × Option RcInner × Nat × Nat) :=
  let (a, s1) := BasicRc.mkFromPtr 100 emptyRcState
  let (b, s2) := BasicRc.mkFromPtr 200 s1
  match BasicRc.copyAssign a b s2 with
  | none => none
  | some (_, s3) => some (s3.blocks 0, s3.blocks 1, s3.valueDestroyCount, s3.blockDestroyCount)

/-- Scenario A of the spec on the embedded code: `slot = Box<i32>(1337)`,
read `*slot`, `slot = 4242`, read `*slot`, then the slot's destructor at the
end of its lifetime.  Yields the two dereferenced values and the log of
destructor invocations on the held content. -/
def boxScenarioA : (Nat × Nat) × List Nat :=
  let slot := BoxV.mkVal 1337
  let v1 := BoxV.star slot
  let (slot2, l1) := BoxV.assignValue slot 4242 []
  let v2 := BoxV.star slot2
  ((v1, v2), BoxV.dtor slot2 l1)

/-!
The claims.
-/

/-- Claim C1 (code_bug): in the scenario `a = make_rc(...)`, `b = a`, drop
`b`, drop `a`, the counts read 2, 2 and then 1 as the claim expects, but when
the count reaches its terminal state the pointee's destructor has run zero
times and the control block has been released zero times — not exactly once.
`drop` only frees when the count is already zero on entry, while construction
starts the count at 1, so the last drop takes the count 1 → 0 and frees
nothing. -/
theorem c1_rc_last_drop_never_releases :
    rcScenarioC = some (2, 2, 1, 0, 0) ∧ rcScenarioC ≠ some (2, 2, 1, 1, 1) := by
  decide

/-- Claim C3 (code_bug): copy-assigning `b` (attached to control block 1)
over `a` (sole owner of control block 0) leaves block 0 alive with its count
still 1 and runs no release at all — the previous attachment is leaked, not
released first as the claim requires (which would have freed block 0's
pointee and storage, since `a` was the last reference). -/
theorem c3_rc_copy_assign_leaks_previous :
    rcAssignScenario
      = some (some ⟨some 100, 1⟩, some ⟨some 200, 2⟩, 0, 0)
    ∧ rcAssignScenario
      ≠ some (none, some ⟨some 200, 2⟩, 1, 1) := by
  decide

/-- Claim C4 (code_bug): after move construction and after move assignment
from a live handle, the moved-from handle's control-block pointer still holds
the control block's address (`some 0`), not null; the count is indeed left
unmodified at 1.  A later destruction of the moved-from handle therefore acts
on the same control block a second time. -/
theorem c4_rc_move_keeps_source_attached :
    (BasicRc.moveCtor (BasicRc.mkFromPtr 100 emptyRcState).1).2.inner = some 0
    ∧ (BasicRc.moveAssign BasicRc.mkDefault (BasicRc.mkFromPtr 100 emptyRcState).1).2.inner = some 0
    ∧ (BasicRc.moveCtor (BasicRc.mkFromPtr 100 emptyRcState).1).2.inner ≠ none
    ∧ BasicRc.get_count (BasicRc.mkFromPtr 100 emptyRcState).1
        (BasicRc.mkFromPtr 100 emptyRcState).2 = some 1 := by
  decide

/-- Claim C10 (confirmed): copy-assigning from a default-constructed (null)
handle is well-defined: the world is returned unchanged (no reference count
anywhere is modified — the increment is guarded by `if (_inner)`), the
target's control-block pointer is null afterwards, `has_value()` is false and
`get_count()` is 0. -/
theorem c10_rc_copy_assign_from_null (target : BasicRc) (s : RcState) :
    BasicRc.copyAssign target BasicRc.mkDefault s = some (BasicRc.mkDefault, s)
    ∧ BasicRc.has_value BasicRc.mkDefault s = some false
    ∧ BasicRc.get_count BasicRc.mkDefault s = some 0 :=
  ⟨rfl, rfl, rfl⟩

/-- Claim C2 (code_bug): moving an `Option` holding 7 transfers the value
into the destination's inner slot, but the source's presence flag is never
cleared — `has_value()` on the moved-from container stays true after both
move construction and move assignment; and after move construction even the
destination's `has_value()` is false, because the constructor body's `drop()`
clears the flag that the member initializer had copied and nothing sets it
back. -/
theorem c2_option_move_leaves_source_present :
    (OptionV.moveCtor (OptionV.mkValue 7) []).2.1.has_value = true
    ∧ (OptionV.moveCtor (OptionV.mkValue 7) []).2.1.has_value ≠ false
    ∧ (OptionV.moveCtor (OptionV.mkValue 7) []).1._inner._value = 7
    ∧ (OptionV.moveCtor (OptionV.mkValue 7) []).1.has_value = false
    ∧ (OptionV.moveAssign OptionV.mkEmpty (OptionV.mkValue 7) []).1.has_value = true
    ∧ (OptionV.moveAssign OptionV.mkEmpty (OptionV.mkValue 7) []).1._inner._value = 7
    ∧ (OptionV.moveAssign OptionV.mkEmpty (OptionV.mkValue 7) []).2.1.has_value = true := by
  decide

/-- Claim C6 (code_bug): copy-constructing from an `Option` holding 7 yields
a destination whose `has_value()` is false while the source's is true — the
constructor body's `drop()` clears the presence flag the member initializer
had copied and, unlike `operator=`, nothing restores it (the value itself is
copied into the inner slot).  Copy-assigning an empty source over a present
target also diverges from the claim: the assignment body does nothing for an
empty source, so the target stays present instead of becoming empty. -/
theorem c6_option_copy_presence_mismatch :
    (OptionV.copyCtor (OptionV.mkValue 7) []).1.has_value = false
    ∧ (OptionV.mkValue 7).has_value = true
    ∧ (OptionV.copyCtor (OptionV.mkValue 7) []).1.has_value
        ≠ (OptionV.mkValue 7).has_value
    ∧ (OptionV.copyCtor (OptionV.mkValue 7) []).1._inner._value = 7
    ∧ (OptionV.copyAssign (OptionV.mkValue 1) OptionV.mkEmpty []).1.has_value = true
    ∧ (OptionV.copyAssign (OptionV.mkValue 1) OptionV.mkEmpty []).1.has_value ≠ false := by
  decide

/-- Claim C7 counterexample: on an `Option` holding 7, `reset()` leaves the
container empty but runs no destructor at all — the destructor-invocation
log stays empty, where the claim requires the contained value's destructor
to have been invoked by the call. -/
theorem c7_reset_runs_no_dtor_cex :
    (OptionV.reset (OptionV.mkValue 7) []).1.has_value = false
    ∧ (OptionV.reset (OptionV.mkValue 7) []).2 = []
    ∧ (OptionV.reset (OptionV.mkValue 7) []).2.length ≠ 1 := by
  decide

/-- Claim C7 as amended: `reset()` and `drop()` both leave the container
empty (`has_value()` false), but only `drop()` invokes the contained value's
destructor — `reset()` merely clears the presence flag and leaves the
destructor log untouched, deferring destruction to a later `drop()` or the
container's own destructor. -/
theorem c7_reset_clears_drop_destroys (v : Nat) (l : List Nat) :
    (OptionV.reset (OptionV.mkValue v) l).1.has_value = false
    ∧ (OptionV.reset (OptionV.mkValue v) l).2 = l
    ∧ (OptionV.drop (OptionV.mkValue v) l).1.has_value = false
    ∧ (OptionV.drop (OptionV.mkValue v) l).2 = l ++ [v] :=
  ⟨rfl, rfl, rfl, rfl⟩

/-- Claim C8 counterexample: across the whole lifetime of Scenario A
(`Box<i32>(1337)`, reassign 4242, destroy), the destructor for the held
content runs twice — once on 1337 inside `operator=` and once on 4242 in the
slot's destructor — not once as the claim states. -/
theorem c8_two_dtor_invocations_cex :
    boxScenarioA.2.length = 2 ∧ boxScenarioA.2.length ≠ 1 := by
  decide

/-- Claim C8 as amended: assignment releases the previously owned content
first and then installs the new value — `*slot` reads 1337 before and 4242
after the reassignment — and across the slot's whole lifetime the destructor
is invoked exactly once per held content (1337 once, at reassignment; 4242
once, at destruction), i.e. twice in total. -/
theorem c8_box_assign_releases_then_installs :
    boxScenarioA = ((1337, 4242), [1337, 4242])
    ∧ boxScenarioA.2.count 1337 = 1
    ∧ boxScenarioA.2.count 4242 = 1 := by
  decide

/-- Claim C9 (confirmed): in the debug build configuration, every unwrap
operation (`borrow_value`, `get_value`, `operator*`) on an `Option` whose
`has_value()` is false raises the descriptive no-value failure instead of
returning, and on a present container (`make_value(v)`) each returns the
held value without raising. -/
theorem c9_debug_unwrap_checked (o : OptionV) (h : o.has_value = false) (v : Nat) :
    o.borrow_value_dbg = Except.error "Result has no value"
    ∧ o.get_value_dbg = Except.error "Result has no value"
    ∧ o.star_dbg = Except.error "Result has no value"
    ∧ (OptionV.mkValue v).has_value = true
    ∧ (OptionV.mkValue v).borrow_value_dbg = Except.ok v
    ∧ (OptionV.mkValue v).get_value_dbg = Except.ok v
    ∧ (OptionV.mkValue v).star_dbg = Except.ok v := by
  have he : o.is_empty = true := by
    simp [OptionV.has_value] at h
    simp [OptionV.is_empty, h]
  refine ⟨?_, ?_, ?_, rfl, rfl, rfl, rfl⟩
  · simp [OptionV.borrow_value_dbg, he]
  · simp [OptionV.get_value_dbg, he]
  · simp [OptionV.star_dbg, OptionV.borrow_value_dbg, he]

/-- Claim C9 witness: the theorem applied to the empty container and the
value 7. -/
theorem c9_debug_unwrap_checked_witness :
    OptionV.mkEmpty.borrow_value_dbg = Except.error "Result has no value"
    ∧ OptionV.mkEmpty.get_value_dbg = Except.error "Result has no value"
    ∧ OptionV.mkEmpty.star_dbg = Except.error "Result has no value"
    ∧ (OptionV.mkValue 7).has_value = true
    ∧ (OptionV.mkValue 7).borrow_value_dbg = Except.ok 7
    ∧ (OptionV.mkValue 7).get_value_dbg = Except.ok 7
    ∧ (OptionV.mkValue 7).star_dbg = Except.ok 7 :=
  c9_debug_unwrap_checked OptionV.mkEmpty (by decide) 7

/-- Each copy construction from a handle attached to block `a` increments
that block's count by one and yields another handle attached to `a`:
after `n` copies the count has grown by `n`. -/
lemma copyN_spec (a : Nat) (v : Option Nat) (n : Nat) :
    ∀ c s, s.blocks a = some ⟨v, c⟩ →
      ∃ s2, copyN ⟨some a⟩ n s = some (List.replicate n ⟨some a⟩, s2)
        ∧ s2.blocks a = some ⟨v, c + n⟩ := by
  induction n with
  | zero =>
      intro c s hs
      exact ⟨s, rfl, by simpa using hs⟩
  | succ n ih =>
      intro c s hs
      have h1 : BasicRc.copyCtor ⟨some a⟩ s
          = some (⟨some a⟩, s.setBlock a ⟨v, c + 1⟩) := by
        simp [BasicRc.copyCtor, hs]
      have h2 : (s.setBlock a ⟨v, c + 1⟩).blocks a = some ⟨v, c + 1⟩ := by
        simp [RcState.setBlock]
      obtain ⟨s2, hcn, hb⟩ := ih (c + 1) (s.setBlock a ⟨v, c + 1⟩) h2
      have hadd : c + 1 + n = c + (n + 1) := by omega
      rw [hadd] at hb
      refine ⟨s2, ?_, hb⟩
      simp [copyN, h1, hcn, List.replicate_succ]

/-- Dropping `m` handles attached to block `a` while the count stays
positive decrements the count by `m` and never frees anything. -/
lemma dropN_spec (a : Nat) (v : Option Nat) (m : Nat) :
    ∀ c s, m ≤ c → s.blocks a = some ⟨v, c⟩ →
      ∃ s2, dropN (List.replicate m ⟨some a⟩) s = some s2
        ∧ s2.blocks a = some ⟨v, c - m⟩ := by
  induction m with
  | zero =>
      intro c s _ hs
      exact ⟨s, rfl, by simpa using hs⟩
  | succ m ih =>
      intro c s hm hs
      have hc : 0 < c := by omega
      have h1 : BasicRc.drop ⟨some a⟩ s
          = some (⟨none⟩, s.setBlock a ⟨v, c - 1⟩) := by
        simp [BasicRc.drop, hs, hc]
      have h2 : (s.setBlock a ⟨v, c - 1⟩).blocks a = some ⟨v, c - 1⟩ := by
        simp [RcState.setBlock]
      obtain ⟨s2, hdn, hb⟩ := ih (c - 1) (s.setBlock a ⟨v, c - 1⟩) (by omega) h2
      have hsub : c - 1 - m = c - (m + 1) := by omega
      rw [hsub] at hb
      refine ⟨s2, ?_, hb⟩
      simp [List.replicate_succ, dropN, h1, hdn]

/-- Claim C5 (confirmed): from a handle constructed with an owned pointer
(`BasicRc(T*)` sets the count to 1), `n` successful copy-constructions from
the original leave `get_count()` at `n + 1` on the original and on every
copy (all copies are the handle `⟨some 0⟩` attached to the same control
block), and after dropping all `n` copies `get_count()` on the remaining
original returns to 1. -/
theorem c5_rc_count_roundtrip (p n : Nat) :
    ∃ s2 s3,
      copyN (BasicRc.mkFromPtr p emptyRcState).1 n (BasicRc.mkFromPtr p emptyRcState).2
        = some (List.replicate n ⟨some 0⟩, s2)
      ∧ BasicRc.get_count (BasicRc.mkFromPtr p emptyRcState).1 s2 = some (n + 1)
      ∧ BasicRc.get_count ⟨some 0⟩ s2 = some (n + 1)
      ∧ dropN (List.replicate n ⟨some 0⟩) s2 = some s3
      ∧ BasicRc.get_count (BasicRc.mkFromPtr p emptyRcState).1 s3 = some 1 := by
  have h0 : (BasicRc.mkFromPtr p emptyRcState).1 = (⟨some 0⟩ : BasicRc) := rfl
  have hb : (BasicRc.mkFromPtr p emptyRcState).2.blocks 0 = some ⟨some p, 1⟩ := by
    simp [BasicRc.mkFromPtr, RcState.setBlock, RcState.allocInner, emptyRcState]
  obtain ⟨s2, hcn, hb2⟩ := copyN_spec 0 (some p) n 1 _ hb
  have hadd : 1 + n = n + 1 := by omega
  rw [hadd] at hb2
  obtain ⟨s3, hdn, hb3⟩ := dropN_spec 0 (some p) n (n + 1) s2 (by omega) hb2
  have hsub : n + 1 - n = 1 := by omega
  rw [hsub] at hb3
  refine ⟨s2, s3, ?_, ?_, ?_, hdn, ?_⟩
  · rw [h0]; exact hcn
  · rw [h0]; simp [BasicRc.get_count, hb2]
  · simp [BasicRc.get_count, hb2]
  · rw [h0]; simp [BasicRc.get_count, hb3]
